import Mathlib

/-!
Verification development for the iSulad pod-sandbox lifecycle core
(`src/daemon/sandbox/sandbox.h`).

The repository source available here is the declaration-only header
`sandbox.h`; the corresponding implementation file (`sandbox.cc`) is not
part of the source tree.  Declarations, enum values, constants, default
arguments and member fields are therefore embedded directly from the
header, while the bodies of the lifecycle operations are modelled from
the specification (each such definition carries a doc comment starting
with `Modelled from the spec:`).

Lifecycle operations additionally record an event trace (which backend
calls were made, in which order the status was set) so that ordering
properties such as "status is set to REMOVING before the Controller's
remove is invoked" and "no backend stop call happens" are statable.
-/

/-- The sandbox status enum, embedded from `sandbox.h` lines 43-49.
The numeric values (0,1,2,3,4) are recorded by `SandboxStatus.toNat`. -/
inductive SandboxStatus where
  | SANDBOX_STATUS_UNKNOWN
  | SANDBOX_STATUS_CREATED
  | SANDBOX_STATUS_RUNNING
  | SANDBOX_STATUS_STOPPED
  | SANDBOX_STATUS_REMOVING
deriving DecidableEq, Repr

open SandboxStatus

/-- Numeric value of each enumerator, as declared in `sandbox.h`
(`SANDBOX_STATUS_UNKNOWN = 0` and the rest consecutive). -/
def SandboxStatus.toNat : SandboxStatus → Nat
  | SANDBOX_STATUS_UNKNOWN => 0
  | SANDBOX_STATUS_CREATED => 1
  | SANDBOX_STATUS_RUNNING => 2
  | SANDBOX_STATUS_STOPPED => 3
  | SANDBOX_STATUS_REMOVING => 4

/-- Partial inverse of `SandboxStatus.toNat`; used when deserializing the
persisted state document. -/
def SandboxStatus.ofNat? : Nat → Option SandboxStatus
  | 0 => some SANDBOX_STATUS_UNKNOWN
  | 1 => some SANDBOX_STATUS_CREATED
  | 2 => some SANDBOX_STATUS_RUNNING
  | 3 => some SANDBOX_STATUS_STOPPED
  | 4 => some SANDBOX_STATUS_REMOVING
  | _ => none

/-- `const uint32_t DEFAULT_STOP_TIMEOUT = 10;` (`sandbox.h` line 41). -/
def DEFAULT_STOP_TIMEOUT : Nat := 10

/-- `struct StatsInfo` (`sandbox.h` lines 51-54): `int64_t timestamp`,
`uint64_t cpuUseNanos`. -/
structure StatsInfo where
  timestamp : Int
  cpuUseNanos : Nat
deriving DecidableEq, Repr

/-- The scalar members of `class SandboxState` (`sandbox.h` lines 76-82):
`uint32_t m_pid`, `uint64_t m_createdAt`, `uint64_t m_updatedAt`,
`uint64_t m_exitedAt`, `uint32_t m_exitStatus`, `SandboxStatus m_status`.
Machine integers are modelled as `Nat`; no claim involves overflow.
The `RWMutex m_stateMutex` member only serializes access and carries no
value, so it has no counterpart here. -/
structure SandboxState where
  m_pid : Nat
  m_createdAt : Nat
  m_updatedAt : Nat
  m_exitedAt : Nat
  m_exitStatus : Nat
  m_status : SandboxStatus
deriving DecidableEq, Repr

/-- `SandboxState() = default` (`sandbox.h` line 58).  The class has no
member initializers and the defaulted constructor performs default
initialization, which for the scalar members above leaves their values
indeterminate.  The indeterminate contents are modelled as an arbitrary
`indet` record that the construction simply passes through: nothing is
initialized. -/
def SandboxState.defaultConstruct (indet : SandboxState) : SandboxState :=
  indet

/-- `auto GetPid() -> uint32_t` (`sandbox.h` line 59). -/
def SandboxState.GetPid (s : SandboxState) : Nat :=
  s.m_pid

/-- `auto GetCreatedAt() -> uint64_t` (`sandbox.h` line 60). -/
def SandboxState.GetCreatedAt (s : SandboxState) : Nat :=
  s.m_createdAt

/-- `auto GetExitedAt() -> uint64_t` (`sandbox.h` line 61). -/
def SandboxState.GetExitedAt (s : SandboxState) : Nat :=
  s.m_exitedAt

/-- `auto GetUpdateAt() -> uint64_t` (`sandbox.h` line 62). -/
def SandboxState.GetUpdateAt (s : SandboxState) : Nat :=
  s.m_updatedAt

/-- `auto GetStatus() -> SandboxStatus` (`sandbox.h` line 63). -/
def SandboxState.GetStatus (s : SandboxState) : SandboxStatus :=
  s.m_status

/-- `auto GetExitStatus() -> uint32_t` (`sandbox.h` line 64). -/
def SandboxState.GetExitStatus (s : SandboxState) : Nat :=
  s.m_exitStatus

/-- `void SetStatus(SandboxStatus st)` (`sandbox.h` line 71).
Modelled from the spec: the body of `SandboxState::SetStatus` is not in
the source tree; spec 4.1 says all setters are simple last-writer-wins
assignments guarded by the lock. -/
def SandboxState.SetStatus (st : SandboxStatus) (s : SandboxState) : SandboxState :=
  { s with m_status := st }

/-- `auto UpdateStatus(SandboxStatus st) -> SandboxStatus`
(`sandbox.h` line 73).  Modelled from the spec: the body of
`SandboxState::UpdateStatus` is not in the source tree; spec 4.1 says it
sets `status` to the new value and returns the previous value, with no
validation of the transition graph. -/
def SandboxState.UpdateStatus (st : SandboxStatus) (s : SandboxState) :
    SandboxStatus × SandboxState :=
  (s.m_status, { s with m_status := st })

/-- The data carried by the Controller's exit callback
(`ControllerExitInfo`, consumed by `Sandbox::OnSandboxExit`,
`sandbox.h` line 125).  Modelled from the spec: the struct itself lives
in `controller.h`, outside the source tree; spec 4.2 says the callback
reports the exit status and exit time of the sandbox process. -/
structure ControllerExitInfo where
  exitStatus : Nat
  exitedAt : Nat
deriving DecidableEq, Repr

/-- The member fields of `class Sandbox` (`sandbox.h` lines 169-198) that
the claims touch.  `m_mutex` carries no value; `m_sandboxConfig` and
`m_controller` are opaque external handles and are not needed by any
claim, so they are not embedded. -/
structure Sandbox where
  m_id : String
  m_name : String
  m_sandboxer : String
  m_runtimeHandler : String
  m_rootdir : String
  m_statedir : String
  m_taskAddress : String
  m_statsInfo : StatsInfo
  m_netNsPath : String
  m_networkReady : Bool
  m_networkSettings : String
  m_containers : List String
  m_state : SandboxState
deriving DecidableEq, Repr

/-- Declared default for the constructor parameter `name`
(`sandbox.h` line 89: `const std::string &name = nullptr`).
A null `const char*` is modelled as `none`. -/
def Sandbox.defaultNameArg : Option String :=
  none

/-- Declared default for the constructor parameter `sandboxer`
(`sandbox.h` line 90: `const std::string &sandboxer = nullptr`). -/
def Sandbox.defaultSandboxerArg : Option String :=
  none

/-- Declared default for the constructor parameter `runtime`
(`sandbox.h` line 90: `const std::string &runtime = nullptr`). -/
def Sandbox.defaultRuntimeArg : Option String :=
  none

/-- Declared default for the constructor parameter `netNsPath`
(`sandbox.h` line 90: `std::string netNsPath = nullptr`). -/
def Sandbox.defaultNetNsPathArg : Option String :=
  none

/-- The `Sandbox` constructor (`sandbox.h` lines 88-91).  Each of the four
`std::string` parameters `name`, `sandboxer`, `runtime` and `netNsPath` is
received as `Option String`: `some str` models an actual string argument,
`none` models the null `const char*` that the header declares as the
default.  Constructing a `std::string` from a null pointer violates the
`std::string` precondition and has no defined result, modelled by
returning `none`.  Fields not supplied at construction start empty /
UNKNOWN (spec 3: `taskAddress` empty until the controller reports it; the
lifecycle starts at UNKNOWN). -/
def Sandbox.construct (id rootdir statedir : String)
    (name sandboxer runtime netNsPath : Option String) : Option Sandbox :=
  match name, sandboxer, runtime, netNsPath with
  | some n, some sb, some rt, some np =>
    some
      { m_id := id
        m_name := n
        m_sandboxer := sb
        m_runtimeHandler := rt
        m_rootdir := rootdir
        m_statedir := statedir
        m_taskAddress := ""
        m_statsInfo := { timestamp := 0, cpuUseNanos := 0 }
        m_netNsPath := np
        m_networkReady := false
        m_networkSettings := ""
        m_containers := []
        m_state :=
          { m_pid := 0, m_createdAt := 0, m_updatedAt := 0, m_exitedAt := 0,
            m_exitStatus := 0, m_status := SANDBOX_STATUS_UNKNOWN } }
  | _, _, _, _ => none

/-- A construction that omits all four defaulted parameters, i.e. uses the
defaults the header declares on lines 88-91. -/
def Sandbox.constructOmitted (id rootdir statedir : String) : Option Sandbox :=
  Sandbox.construct id rootdir statedir Sandbox.defaultNameArg
    Sandbox.defaultSandboxerArg Sandbox.defaultRuntimeArg Sandbox.defaultNetNsPathArg

/-- `void AddContainer(const std::string &id)` (`sandbox.h` line 113).
Modelled from the spec: the body is not in the source tree; spec 4.2 says
`AddContainer` is a no-op if the ID is already present (duplicates
forbidden), otherwise the id joins the container-ID list. -/
def Sandbox.AddContainer (id : String) (s : Sandbox) : Sandbox :=
  if id ∈ s.m_containers then s
  else { s with m_containers := s.m_containers ++ [id] }

/-- `void RemoveContainers(const std::string &id)` (`sandbox.h` line 115).
Modelled from the spec: the body is not in the source tree; spec 4.2 says
removal of a non-present ID is a no-op, not an error (and the declared
return type is `void` with no error output, so no error can be
reported). -/
def Sandbox.RemoveContainers (id : String) (s : Sandbox) : Sandbox :=
  { s with m_containers := s.m_containers.filter (fun c => c ≠ id) }

/-- The visible effects of one lifecycle call, in order: backend calls,
status writes, persistence actions.  Used to state ordering properties
("REMOVING is set before the backend remove is called") and absence
properties ("no backend stop call was made"). -/
inductive Event where
  | evCtrlCreate
  | evCtrlStart
  | evCtrlStop (timeoutSecs : Nat)
  | evCtrlRemove
  | evSetStatus (st : SandboxStatus)
  | evSaveFiles
  | evDeleteFiles
deriving DecidableEq, Repr

/-- Result of a lifecycle call: the success flag, the sandbox after the
call, and the trace of visible effects the call performed. -/
structure OpResult where
  ok : Bool
  sandbox : Sandbox
  trace : List Event
deriving DecidableEq, Repr

/-- The outcome the external Controller produces for each backend verb,
together with the data a successful call reports.  Modelled from the
spec: the Controller is an external contract (spec 4.4); each verb
returns success or failure, start reports the pid and task address, stop
reports the exit info recorded on a graceful stop. -/
structure CtrlBehavior where
  createOk : Bool
  startOk : Bool
  stopOk : Bool
  removeOk : Bool
  startPid : Nat
  startTaskAddress : String
  stopExitInfo : ControllerExitInfo
deriving DecidableEq, Repr

/-- Record an exit into the sandbox state: exit status and exit time from
the exit info, status to STOPPED.  Modelled from the spec: shared tail of
a successful stop and of the exit callback (spec 4.2). -/
def Sandbox.recordExit (info : ControllerExitInfo) (s : Sandbox) : Sandbox :=
  { s with
    m_state :=
      { s.m_state with
        m_exitStatus := info.exitStatus
        m_exitedAt := info.exitedAt
        m_status := SANDBOX_STATUS_STOPPED } }

/-- `auto IsRemovalInProcess(Errors &error) -> bool`
(`sandbox.h` line 167).  Modelled from the spec: the body is not in the
source tree; `Remove` sets status to REMOVING immediately so concurrent
callers observe the removal-in-progress state (spec 4.2), hence removal
is in process exactly when the status is REMOVING. -/
def Sandbox.IsRemovalInProcess (s : Sandbox) : Bool :=
  s.m_state.m_status = SANDBOX_STATUS_REMOVING

/-- `auto Create(Errors &error) -> bool` (`sandbox.h` line 129).
Modelled from the spec: the body is not in the source tree; spec 4.2 says
Create requires the sandbox not already created, persists the initial
documents, invokes the Controller's create, and on success transitions to
CREATED and persists; on any failure no partial state is advertised (the
in-memory sandbox is unchanged). -/
def Sandbox.Create (ctrl : CtrlBehavior) (s : Sandbox) : OpResult :=
  if s.m_state.m_status ≠ SANDBOX_STATUS_UNKNOWN then
    { ok := false, sandbox := s, trace := [] }
  else if ctrl.createOk then
    { ok := true
      sandbox := { s with m_state := { s.m_state with m_status := SANDBOX_STATUS_CREATED } }
      trace := [Event.evSaveFiles, Event.evCtrlCreate,
                Event.evSetStatus SANDBOX_STATUS_CREATED, Event.evSaveFiles] }
  else
    { ok := false, sandbox := s, trace := [Event.evSaveFiles, Event.evCtrlCreate] }

/-- `auto Start(Errors &error) -> bool` (`sandbox.h` line 130).
Modelled from the spec: the body is not in the source tree; spec 4.2 says
Start requires status CREATED, delegates to the Controller's start, on
success sets status RUNNING, captures pid and task address and persists;
on failure status remains CREATED. -/
def Sandbox.Start (ctrl : CtrlBehavior) (s : Sandbox) : OpResult :=
  if s.m_state.m_status ≠ SANDBOX_STATUS_CREATED then
    { ok := false, sandbox := s, trace := [] }
  else if ctrl.startOk then
    { ok := true
      sandbox :=
        { s with
          m_taskAddress := ctrl.startTaskAddress
          m_state :=
            { s.m_state with m_pid := ctrl.startPid, m_status := SANDBOX_STATUS_RUNNING } }
      trace := [Event.evCtrlStart, Event.evSetStatus SANDBOX_STATUS_RUNNING,
                Event.evSaveFiles] }
  else
    { ok := false, sandbox := s, trace := [Event.evCtrlStart] }

/-- `auto DoStop(uint32_t timeoutSecs, Errors &error) -> bool`
(`sandbox.h` line 166).  Modelled from the spec: the body is not in the
source tree; spec 4.2 says a stop of a non-RUNNING sandbox is a
successful no-op, otherwise the Controller's stop is invoked with the
given graceful-timeout budget and on success the exit status/time are
recorded, the status moves to STOPPED and state is persisted; on backend
failure the state is left unchanged. -/
def Sandbox.DoStop (timeoutSecs : Nat) (ctrl : CtrlBehavior) (s : Sandbox) : OpResult :=
  if s.m_state.m_status ≠ SANDBOX_STATUS_RUNNING then
    { ok := true, sandbox := s, trace := [] }
  else if ctrl.stopOk then
    { ok := true
      sandbox := s.recordExit ctrl.stopExitInfo
      trace := [Event.evCtrlStop timeoutSecs, Event.evSetStatus SANDBOX_STATUS_STOPPED,
                Event.evSaveFiles] }
  else
    { ok := false, sandbox := s, trace := [Event.evCtrlStop timeoutSecs] }

/-- `auto Stop(uint32_t timeoutSecs, Errors &error) -> bool`
(`sandbox.h` line 131).  Modelled from the spec: the body is not in the
source tree; spec 4.2 says Stop first checks `IsRemovalInProcess` and
fails fast when a removal is in flight, and otherwise performs the stop
(`DoStop`). -/
def Sandbox.Stop (timeoutSecs : Nat) (ctrl : CtrlBehavior) (s : Sandbox) : OpResult :=
  if s.IsRemovalInProcess then
    { ok := false, sandbox := s, trace := [] }
  else
    s.DoStop timeoutSecs ctrl

/-- `Stop` driven without an explicit timeout: callers fall back to the
header's `DEFAULT_STOP_TIMEOUT` constant (spec 4.2: default when
unspecified is 10 seconds). -/
def Sandbox.StopDefault (ctrl : CtrlBehavior) (s : Sandbox) : OpResult :=
  s.Stop DEFAULT_STOP_TIMEOUT ctrl

/-- Tail of `Remove` once the sandbox is in a removable state `s1` (after
an optional internal force-stop whose trace is `pre`): set status to
REMOVING, invoke the Controller's remove; on success delete the persisted
files (status stays REMOVING, the owner discards the object); on failure
roll the status back to the pre-remove value `old`.  Modelled from the
spec (spec 4.2, Remove). -/
def Sandbox.removePhase (ctrl : CtrlBehavior) (pre : List Event) (s1 : Sandbox) : OpResult :=
  let old := s1.m_state.m_status
  if ctrl.removeOk then
    { ok := true
      sandbox := { s1 with m_state := { s1.m_state with m_status := SANDBOX_STATUS_REMOVING } }
      trace := pre ++ [Event.evSetStatus SANDBOX_STATUS_REMOVING, Event.evCtrlRemove,
                       Event.evDeleteFiles] }
  else
    { ok := false
      sandbox := s1
      trace := pre ++ [Event.evSetStatus SANDBOX_STATUS_REMOVING, Event.evCtrlRemove,
                       Event.evSetStatus old] }

/-- `auto Remove(bool force, Errors &error) -> bool`
(`sandbox.h` line 132).  Modelled from the spec: the body is not in the
source tree; spec 4.2 and 8 say Remove on a sandbox already in REMOVING
fails fast without invoking the backend; the precondition is status in
CREATED or STOPPED, unless `force` is set, in which case a RUNNING
sandbox is first force-stopped internally (with the default stop budget);
then status is set to REMOVING before the backend remove, and on backend
failure the status is rolled back to its pre-remove value. -/
def Sandbox.Remove (force : Bool) (ctrl : CtrlBehavior) (s : Sandbox) : OpResult :=
  if s.IsRemovalInProcess then
    { ok := false, sandbox := s, trace := [] }
  else if s.m_state.m_status = SANDBOX_STATUS_CREATED ∨
          s.m_state.m_status = SANDBOX_STATUS_STOPPED then
    s.removePhase ctrl []
  else if s.m_state.m_status = SANDBOX_STATUS_RUNNING ∧ force then
    let r := s.DoStop DEFAULT_STOP_TIMEOUT ctrl
    if r.ok then r.sandbox.removePhase ctrl r.trace
    else { ok := false, sandbox := s, trace := r.trace }
  else
    { ok := false, sandbox := s, trace := [] }

/-- `void OnSandboxExit(const ControllerExitInfo &exitInfo)`
(`sandbox.h` line 125).  Modelled from the spec: the body is not in the
source tree; spec 4.2 says the callback verifies the sandbox is still
RUNNING (stale or duplicate callbacks are ignored otherwise), records the
exit status/time and transitions to STOPPED. -/
def Sandbox.OnSandboxExit (exitInfo : ControllerExitInfo) (s : Sandbox) : Sandbox :=
  if s.m_state.m_status = SANDBOX_STATUS_RUNNING then s.recordExit exitInfo
  else s

/-- One request arriving at the sandbox: a lifecycle verb or the exit
callback. -/
inductive SandboxOp where
  | opCreate
  | opStart
  | opStop (timeoutSecs : Nat)
  | opRemove (force : Bool)
  | opOnExit (exitInfo : ControllerExitInfo)
deriving DecidableEq, Repr

/-- The sandbox after one operation completes, with the Controller
behaving as `ctrl` during that operation. -/
def Sandbox.applyOp (op : SandboxOp) (ctrl : CtrlBehavior) (s : Sandbox) : Sandbox :=
  match op with
  | SandboxOp.opCreate => (s.Create ctrl).sandbox
  | SandboxOp.opStart => (s.Start ctrl).sandbox
  | SandboxOp.opStop t => (s.Stop t ctrl).sandbox
  | SandboxOp.opRemove f => (s.Remove f ctrl).sandbox
  | SandboxOp.opOnExit info => s.OnSandboxExit info

/-- The transitions one completed lifecycle operation may take: the
forward chain UNKNOWN to CREATED to RUNNING to STOPPED to REMOVING.
Remove enters REMOVING directly from CREATED (a never-started sandbox is
removable), and a forced Remove of a RUNNING sandbox stops it and removes
it within the one call, so that operation crosses RUNNING to REMOVING
(passing through STOPPED internally).  Every pair moves strictly forward
in the chain order. -/
def allowedTransitions : List (SandboxStatus × SandboxStatus) :=
  [(SANDBOX_STATUS_UNKNOWN, SANDBOX_STATUS_CREATED),
   (SANDBOX_STATUS_CREATED, SANDBOX_STATUS_RUNNING),
   (SANDBOX_STATUS_RUNNING, SANDBOX_STATUS_STOPPED),
   (SANDBOX_STATUS_CREATED, SANDBOX_STATUS_REMOVING),
   (SANDBOX_STATUS_STOPPED, SANDBOX_STATUS_REMOVING),
   (SANDBOX_STATUS_RUNNING, SANDBOX_STATUS_REMOVING)]

/-- The trace sets status REMOVING strictly before some invocation of the
Controller's remove. -/
def SetsRemovingBeforeCtrlRemove (tr : List Event) : Prop :=
  ∃ l1 l2, tr = l1 ++ Event.evCtrlRemove :: l2 ∧
    Event.evSetStatus SANDBOX_STATUS_REMOVING ∈ l1

/-- No Controller stop call occurs in the trace. -/
def NoCtrlStop (tr : List Event) : Prop :=
  ∀ t, Event.evCtrlStop t ∉ tr

/-- `sandbox_metadata.json` document: identity and configuration, plus
the attached container list (spec 4.3, 6; round-trip must reproduce the
container list). -/
structure SandboxMetadataDoc where
  id : String
  name : String
  sandboxer : String
  runtimeHandler : String
  netNsPath : String
  taskAddress : String
  containers : List String
deriving DecidableEq, Repr

/-- `sandbox_state.json` document: pid, timestamps, exit status and the
status enum serialized as its numeric value (spec 4.3, 6). -/
structure SandboxStateDoc where
  pid : Nat
  createdAt : Nat
  updatedAt : Nat
  exitedAt : Nat
  exitStatus : Nat
  status : Nat
deriving DecidableEq, Repr

/-- `network_settings.json` document: the serialized settings blob and
the readiness flag (spec 4.3, 6). -/
structure NetworkSettingsDoc where
  networkSettings : String
  networkReady : Bool
deriving DecidableEq, Repr

/-- The three independent persisted documents of one sandbox. -/
structure PersistedDocs where
  metadata : SandboxMetadataDoc
  stateDoc : SandboxStateDoc
  network : NetworkSettingsDoc
deriving DecidableEq, Repr

/-- `auto Save(Errors &error) -> bool` (`sandbox.h` line 121).
Modelled from the spec: the body is not in the source tree; spec 4.3 says
Save writes the three documents (metadata, state, network settings) under
the sandbox's state directory.  The documents written on a successful
Save are returned. -/
def Sandbox.Save (s : Sandbox) : PersistedDocs :=
  { metadata :=
      { id := s.m_id
        name := s.m_name
        sandboxer := s.m_sandboxer
        runtimeHandler := s.m_runtimeHandler
        netNsPath := s.m_netNsPath
        taskAddress := s.m_taskAddress
        containers := s.m_containers }
    stateDoc :=
      { pid := s.m_state.m_pid
        createdAt := s.m_state.m_createdAt
        updatedAt := s.m_state.m_updatedAt
        exitedAt := s.m_state.m_exitedAt
        exitStatus := s.m_state.m_exitStatus
        status := s.m_state.m_status.toNat }
    network :=
      { networkSettings := s.m_networkSettings
        networkReady := s.m_networkReady } }

/-- `auto Load(Errors &error) -> bool` (`sandbox.h` line 123).
Modelled from the spec: the body is not in the source tree; spec 4.3 says
Load, called on a freshly constructed instance at daemon startup, reads
the three documents back and rebuilds the sandbox fields without invoking
any backend operation.  Fails (`none`) when the persisted status value
does not decode to a status enumerator. -/
def Sandbox.Load (docs : PersistedDocs) (s : Sandbox) : Option Sandbox :=
  match SandboxStatus.ofNat? docs.stateDoc.status with
  | none => none
  | some st =>
    some
      { s with
        m_id := docs.metadata.id
        m_name := docs.metadata.name
        m_sandboxer := docs.metadata.sandboxer
        m_runtimeHandler := docs.metadata.runtimeHandler
        m_netNsPath := docs.metadata.netNsPath
        m_taskAddress := docs.metadata.taskAddress
        m_containers := docs.metadata.containers
        m_networkSettings := docs.network.networkSettings
        m_networkReady := docs.network.networkReady
        m_state :=
          { m_pid := docs.stateDoc.pid
            m_createdAt := docs.stateDoc.createdAt
            m_updatedAt := docs.stateDoc.updatedAt
            m_exitedAt := docs.stateDoc.exitedAt
            m_exitStatus := docs.stateDoc.exitStatus
            m_status := st } }

/-- A concrete Controller behavior for witnesses and counterexamples. -/
def egCtrl : CtrlBehavior :=
  { createOk := true, startOk := true, stopOk := true, removeOk := true,
    startPid := 42, startTaskAddress := "vsock://4242", stopExitInfo := ⟨0, 1700000000⟩ }

/-- `egCtrl` with a failing backend remove. -/
def egCtrlRemoveFail : CtrlBehavior :=
  { egCtrl with removeOk := false }

/-- A concrete sandbox with the given status, for witnesses and
counterexamples. -/
def egSandbox (st : SandboxStatus) : Sandbox :=
  { m_id := "sb1"
    m_name := "pod1"
    m_sandboxer := "shim"
    m_runtimeHandler := "runc"
    m_rootdir := "/var/lib/isulad/sandbox/sb1"
    m_statedir := "/var/run/isulad/sandbox/sb1"
    m_taskAddress := ""
    m_statsInfo := { timestamp := 0, cpuUseNanos := 0 }
    m_netNsPath := "/proc/1/ns/net"
    m_networkReady := false
    m_networkSettings := ""
    m_containers := ["c1"]
    m_state :=
      { m_pid := 7, m_createdAt := 5, m_updatedAt := 0, m_exitedAt := 0,
        m_exitStatus := 0, m_status := st } }

/-- A concrete exit info for witnesses. -/
def egExitInfo : ControllerExitInfo :=
  { exitStatus := 137, exitedAt := 1700000123 }

/-- The round-trip of spec 8: save a sandbox, construct a fresh instance
with the same id and directories (supplying the four string arguments, as
a defined construction requires), and load the saved documents into it. -/
def saveLoadRoundtrip (s : Sandbox) (n sb rt np : String) : Option Sandbox :=
  (Sandbox.construct s.m_id s.m_rootdir s.m_statedir (some n) (some sb) (some rt)
      (some np)).bind
    (fun fresh => fresh.Load s.Save)

/-! ## Helper lemmas -/

/-- Decoding the serialized numeric value of a status yields the status
back. -/
theorem SandboxStatus.ofNat_toNat (st : SandboxStatus) :
    SandboxStatus.ofNat? st.toNat = some st := by
  cases st <;> rfl

/-- The tail phase of `Remove` always sets REMOVING before invoking the
Controller's remove, and on a failing backend remove it fails and returns
the sandbox it was given, unchanged. -/
theorem removePhase_spec (s1 : Sandbox) (ctrl : CtrlBehavior) (pre : List Event) :
    SetsRemovingBeforeCtrlRemove (s1.removePhase ctrl pre).trace ∧
    (ctrl.removeOk = false →
      (s1.removePhase ctrl pre).ok = false ∧ (s1.removePhase ctrl pre).sandbox = s1) := by
  by_cases hr : ctrl.removeOk
  · refine ⟨⟨pre ++ [Event.evSetStatus SANDBOX_STATUS_REMOVING], [Event.evDeleteFiles], ?_, by simp⟩,
      by simp [hr]⟩
    simp [Sandbox.removePhase, hr]
  · refine ⟨⟨pre ++ [Event.evSetStatus SANDBOX_STATUS_REMOVING],
      [Event.evSetStatus s1.m_state.m_status], ?_, by simp⟩,
      fun _ => by simp [Sandbox.removePhase, hr]⟩
    simp [Sandbox.removePhase, hr]

/-! ## Claim theorems -/

/-- C6: `SandboxState::UpdateStatus(new)` sets the stored status to `new`
and returns the status value stored immediately before the call, for all
pairs of old and new status (it is total and rejects no transition); it
touches no other field, and a subsequent `UpdateStatus` returns the value
just stored. -/
theorem updateStatus_sets_and_returns_old (s : SandboxState) (st st2 : SandboxStatus) :
    (s.UpdateStatus st).1 = s.m_status ∧
    (s.UpdateStatus st).2.m_status = st ∧
    (s.UpdateStatus st).2.m_pid = s.m_pid ∧
    (s.UpdateStatus st).2.m_createdAt = s.m_createdAt ∧
    (s.UpdateStatus st).2.m_updatedAt = s.m_updatedAt ∧
    (s.UpdateStatus st).2.m_exitedAt = s.m_exitedAt ∧
    (s.UpdateStatus st).2.m_exitStatus = s.m_exitStatus ∧
    ((s.UpdateStatus st).2.UpdateStatus st2).1 = st :=
  ⟨rfl, rfl, rfl, rfl, rfl, rfl, rfl, rfl⟩

/-- C9: the `Sandbox` constructor declares `nullptr` as the default for
the `std::string` parameters `name`, `sandboxer`, `runtime` and
`netNsPath`; a construction that omits any of these arguments initializes
a `std::string` from a null pointer and has no defined result (`none`),
while supplying all four strings yields a defined construction. -/
theorem construct_null_defaults_undefined :
    Sandbox.defaultNameArg = none ∧
    Sandbox.defaultSandboxerArg = none ∧
    Sandbox.defaultRuntimeArg = none ∧
    Sandbox.defaultNetNsPathArg = none ∧
    (∀ id rootdir statedir, Sandbox.constructOmitted id rootdir statedir = none) ∧
    (∀ id rootdir statedir sb rt np,
      Sandbox.construct id rootdir statedir none sb rt np = none) ∧
    (∀ id rootdir statedir n rt np,
      Sandbox.construct id rootdir statedir n none rt np = none) ∧
    (∀ id rootdir statedir n sb np,
      Sandbox.construct id rootdir statedir n sb none np = none) ∧
    (∀ id rootdir statedir n sb rt,
      Sandbox.construct id rootdir statedir n sb rt none = none) ∧
    (∀ id rootdir statedir n sb rt np,
      (Sandbox.construct id rootdir statedir (some n) (some sb) (some rt) (some np)).isSome = true) := by
  refine ⟨rfl, rfl, rfl, rfl, fun id r sd => rfl, ?_, ?_, ?_, ?_, fun id r sd n sb rt np => rfl⟩
  · intro id r sd sb rt np
    cases sb <;> cases rt <;> cases np <;> rfl
  · intro id r sd n rt np
    cases n <;> cases rt <;> cases np <;> rfl
  · intro id r sd n sb np
    cases n <;> cases sb <;> cases np <;> rfl
  · intro id r sd n sb rt
    cases n <;> cases sb <;> cases rt <;> rfl

/-- C10: `SandboxState() = default` initializes none of the scalar
members: every getter called on a default-constructed state returns
whatever indeterminate contents `indet` the members happen to hold, and
in particular there is a default-constructed state whose status is not
`SANDBOX_STATUS_UNKNOWN`. -/
theorem sandboxState_default_uninitialized :
    (∀ indet : SandboxState,
      (SandboxState.defaultConstruct indet).GetPid = indet.m_pid ∧
      (SandboxState.defaultConstruct indet).GetCreatedAt = indet.m_createdAt ∧
      (SandboxState.defaultConstruct indet).GetUpdateAt = indet.m_updatedAt ∧
      (SandboxState.defaultConstruct indet).GetExitedAt = indet.m_exitedAt ∧
      (SandboxState.defaultConstruct indet).GetExitStatus = indet.m_exitStatus ∧
      (SandboxState.defaultConstruct indet).GetStatus = indet.m_status) ∧
    (∃ indet : SandboxState,
      (SandboxState.defaultConstruct indet).GetStatus ≠ SANDBOX_STATUS_UNKNOWN) := by
  refine ⟨fun indet => ⟨rfl, rfl, rfl, rfl, rfl, rfl⟩, ?_⟩
  exact ⟨{ m_pid := 0, m_createdAt := 0, m_updatedAt := 0, m_exitedAt := 0,
           m_exitStatus := 0, m_status := SANDBOX_STATUS_RUNNING }, by decide⟩

/-- C7: adding the same container id twice leaves the container list
containing it exactly once (assuming it is not already duplicated, which
the data model forbids), and removing an id that is not in the list
leaves the sandbox unchanged (and `RemoveContainers` returns `void`, so
no error can be reported). -/
theorem addContainer_idem_removeContainers_absent (s : Sandbox) (x : String)
    (hdup : s.m_containers.count x ≤ 1) :
    ((s.AddContainer x).AddContainer x).m_containers.count x = 1 ∧
    (x ∉ s.m_containers → s.RemoveContainers x = s) := by
  constructor
  · by_cases hx : x ∈ s.m_containers
    · have h1 : 0 < s.m_containers.count x := List.count_pos_iff.mpr hx
      simp [Sandbox.AddContainer, hx]
      omega
    · have h0 : s.m_containers.count x = 0 := List.count_eq_zero.mpr hx
      simp [Sandbox.AddContainer, hx, List.count_append, h0]
  · intro hx
    have hf : s.m_containers.filter (fun c => c ≠ x) = s.m_containers := by
      apply List.filter_eq_self.mpr
      intro a ha
      have hax : a ≠ x := fun he => hx (he ▸ ha)
      simpa using hax
    unfold Sandbox.RemoveContainers
    rw [hf]

/-- C7 witness: concrete evaluation on the example sandbox. -/
theorem addContainer_idem_removeContainers_absent_witness :
    (egSandbox SANDBOX_STATUS_CREATED).m_containers.count "c2" ≤ 1 ∧
    (((egSandbox SANDBOX_STATUS_CREATED).AddContainer "c2").AddContainer "c2").m_containers.count "c2" = 1 ∧
    (egSandbox SANDBOX_STATUS_CREATED).RemoveContainers "c2" = egSandbox SANDBOX_STATUS_CREATED :=
  ⟨by decide,
   (addContainer_idem_removeContainers_absent (egSandbox SANDBOX_STATUS_CREATED) "c2" (by decide)).1,
   (addContainer_idem_removeContainers_absent (egSandbox SANDBOX_STATUS_CREATED) "c2" (by decide)).2
     (by decide)⟩

/-- C3: `OnSandboxExit` has an effect only when the current status is
RUNNING, in which case it records the exit status and exit time from the
callback and transitions to STOPPED; for every other status it changes
nothing, and a second delivery is always a no-op (at most one effective
transition). -/
theorem onSandboxExit_only_running (s : Sandbox) (info : ControllerExitInfo) :
    (s.m_state.m_status ≠ SANDBOX_STATUS_RUNNING → s.OnSandboxExit info = s) ∧
    (s.m_state.m_status = SANDBOX_STATUS_RUNNING →
      (s.OnSandboxExit info).m_state.m_status = SANDBOX_STATUS_STOPPED ∧
      (s.OnSandboxExit info).m_state.m_exitStatus = info.exitStatus ∧
      (s.OnSandboxExit info).m_state.m_exitedAt = info.exitedAt) ∧
    (∀ info2, (s.OnSandboxExit info).OnSandboxExit info2 = s.OnSandboxExit info) := by
  by_cases h : s.m_state.m_status = SANDBOX_STATUS_RUNNING <;>
    simp [Sandbox.OnSandboxExit, Sandbox.recordExit, h]

/-- C3 witness: an exit callback on a RUNNING example sandbox records the
exit and stops it; after an explicit stop has already moved the sandbox
to STOPPED the callback is a no-op. -/
theorem onSandboxExit_only_running_witness :
    ((egSandbox SANDBOX_STATUS_RUNNING).OnSandboxExit egExitInfo).m_state.m_status =
      SANDBOX_STATUS_STOPPED ∧
    (egSandbox SANDBOX_STATUS_STOPPED).OnSandboxExit egExitInfo =
      egSandbox SANDBOX_STATUS_STOPPED :=
  ⟨((onSandboxExit_only_running (egSandbox SANDBOX_STATUS_RUNNING) egExitInfo).2.1 rfl).1,
   (onSandboxExit_only_running (egSandbox SANDBOX_STATUS_STOPPED) egExitInfo).1 (by decide)⟩

/-- C1: on a sandbox in a removable status (CREATED or STOPPED), `Remove`
sets the status to REMOVING before invoking the Controller's remove, and
if the Controller's remove fails the call reports failure and the sandbox
is exactly what it was before the call (the status is rolled back, so a
failed `Remove` can be retried). -/
theorem remove_sets_removing_and_rolls_back (s : Sandbox) (force : Bool) (ctrl : CtrlBehavior)
    (h : s.m_state.m_status = SANDBOX_STATUS_CREATED ∨
         s.m_state.m_status = SANDBOX_STATUS_STOPPED) :
    SetsRemovingBeforeCtrlRemove (s.Remove force ctrl).trace ∧
    (ctrl.removeOk = false →
      (s.Remove force ctrl).ok = false ∧ (s.Remove force ctrl).sandbox = s) := by
  have hred : s.Remove force ctrl = s.removePhase ctrl [] := by
    rcases h with h | h <;> simp [Sandbox.Remove, Sandbox.IsRemovalInProcess, h]
  rw [hred]
  exact removePhase_spec s ctrl []

/-- C1 witness: a failed backend remove on a STOPPED example sandbox set
REMOVING before the backend call, failed, and left the sandbox exactly as
it was. -/
theorem remove_sets_removing_and_rolls_back_witness :
    SetsRemovingBeforeCtrlRemove
      ((egSandbox SANDBOX_STATUS_STOPPED).Remove false egCtrlRemoveFail).trace ∧
    ((egSandbox SANDBOX_STATUS_STOPPED).Remove false egCtrlRemoveFail).ok = false ∧
    ((egSandbox SANDBOX_STATUS_STOPPED).Remove false egCtrlRemoveFail).sandbox =
      egSandbox SANDBOX_STATUS_STOPPED :=
  ⟨(remove_sets_removing_and_rolls_back (egSandbox SANDBOX_STATUS_STOPPED) false
      egCtrlRemoveFail (Or.inr rfl)).1,
   (remove_sets_removing_and_rolls_back (egSandbox SANDBOX_STATUS_STOPPED) false
      egCtrlRemoveFail (Or.inr rfl)).2 rfl⟩

/-- C2 counterexample: the claim says `Stop` on a sandbox in status
REMOVING returns success; on the modelled code, `Stop` on a concrete
REMOVING sandbox checks `IsRemovalInProcess` first and fails fast, so it
does not return success. -/
theorem stop_on_removing_fails_counterexample :
    ¬ (((egSandbox SANDBOX_STATUS_REMOVING).Stop 5 egCtrl).ok = true) := by
  decide

/-- C2 amended: for every sandbox whose status is not RUNNING, `Stop`
makes no Controller stop call and leaves the sandbox unchanged; it
returns success when the status is CREATED or STOPPED (idempotent no-op,
in particular on a never-started CREATED sandbox), but fails fast when
the status is REMOVING (removal in process). -/
theorem stop_nonrunning_no_backend_call (s : Sandbox) (timeoutSecs : Nat)
    (ctrl : CtrlBehavior) (h : s.m_state.m_status ≠ SANDBOX_STATUS_RUNNING) :
    (s.Stop timeoutSecs ctrl).sandbox = s ∧
    NoCtrlStop (s.Stop timeoutSecs ctrl).trace ∧
    ((s.Stop timeoutSecs ctrl).ok = true ↔
      s.m_state.m_status ≠ SANDBOX_STATUS_REMOVING) := by
  by_cases hr : s.m_state.m_status = SANDBOX_STATUS_REMOVING <;>
    simp [Sandbox.Stop, Sandbox.IsRemovalInProcess, Sandbox.DoStop, NoCtrlStop, h, hr]

/-- C2 witness: `Stop` on a CREATED example sandbox succeeds, makes no
Controller stop call, and leaves the sandbox unchanged (status remains
CREATED). -/
theorem stop_nonrunning_no_backend_call_witness :
    ((egSandbox SANDBOX_STATUS_CREATED).Stop 5 egCtrl).sandbox =
      egSandbox SANDBOX_STATUS_CREATED ∧
    NoCtrlStop ((egSandbox SANDBOX_STATUS_CREATED).Stop 5 egCtrl).trace ∧
    ((egSandbox SANDBOX_STATUS_CREATED).Stop 5 egCtrl).ok = true :=
  ⟨(stop_nonrunning_no_backend_call (egSandbox SANDBOX_STATUS_CREATED) 5 egCtrl (by decide)).1,
   (stop_nonrunning_no_backend_call (egSandbox SANDBOX_STATUS_CREATED) 5 egCtrl (by decide)).2.1,
   (stop_nonrunning_no_backend_call (egSandbox SANDBOX_STATUS_CREATED) 5 egCtrl
      (by decide)).2.2.mpr (by decide)⟩

/-- C8: when `Stop` is driven without an explicit timeout the Controller's
stop is invoked with exactly the declared `DEFAULT_STOP_TIMEOUT`, which
is 10 seconds: on a RUNNING sandbox a Controller stop call occurs, it
carries `DEFAULT_STOP_TIMEOUT`, and every Controller stop call in the
trace carries 10. -/
theorem stopDefault_uses_default_timeout (s : Sandbox) (ctrl : CtrlBehavior)
    (h : s.m_state.m_status = SANDBOX_STATUS_RUNNING) :
    DEFAULT_STOP_TIMEOUT = 10 ∧
    Event.evCtrlStop DEFAULT_STOP_TIMEOUT ∈ (s.StopDefault ctrl).trace ∧
    (∀ t, Event.evCtrlStop t ∈ (s.StopDefault ctrl).trace → t = 10) := by
  refine ⟨rfl, ?_, ?_⟩ <;>
    by_cases hk : ctrl.stopOk <;>
      simp [Sandbox.StopDefault, Sandbox.Stop, Sandbox.IsRemovalInProcess, Sandbox.DoStop,
        DEFAULT_STOP_TIMEOUT, h, hk]

/-- C8 witness: stopping a RUNNING example sandbox without an explicit
timeout invokes the Controller stop with a 10 second budget. -/
theorem stopDefault_uses_default_timeout_witness :
    Event.evCtrlStop DEFAULT_STOP_TIMEOUT ∈
      ((egSandbox SANDBOX_STATUS_RUNNING).StopDefault egCtrl).trace ∧
    DEFAULT_STOP_TIMEOUT = 10 :=
  ⟨(stopDefault_uses_default_timeout (egSandbox SANDBOX_STATUS_RUNNING) egCtrl rfl).2.1,
   (stopDefault_uses_default_timeout (egSandbox SANDBOX_STATUS_RUNNING) egCtrl rfl).1⟩

/-- C4: every completed operation moves the status forward (its numeric
position in the chain UNKNOWN, CREATED, RUNNING, STOPPED, REMOVING never
decreases), any change of status is one of the allowed forward
transitions, and no operation ever transitions the status out of
REMOVING (REMOVING is terminal).  Quantifying over every sandbox state,
operation and Controller behavior covers every reachable sequence of
operations. -/
theorem lifecycle_status_forward_only (s : Sandbox) (op : SandboxOp) (ctrl : CtrlBehavior) :
    s.m_state.m_status.toNat ≤ (s.applyOp op ctrl).m_state.m_status.toNat ∧
    ((s.applyOp op ctrl).m_state.m_status = s.m_state.m_status ∨
      (s.m_state.m_status, (s.applyOp op ctrl).m_state.m_status) ∈ allowedTransitions) ∧
    (s.m_state.m_status = SANDBOX_STATUS_REMOVING →
      (s.applyOp op ctrl).m_state.m_status = SANDBOX_STATUS_REMOVING) := by
  have key : ∀ a b : SandboxStatus,
      (b = a ∨ (a, b) ∈ allowedTransitions) →
      (a.toNat ≤ b.toNat ∧ (a = SANDBOX_STATUS_REMOVING → b = SANDBOX_STATUS_REMOVING)) := by
    intro a b
    cases a <;> cases b <;> decide
  suffices hd : (s.applyOp op ctrl).m_state.m_status = s.m_state.m_status ∨
      (s.m_state.m_status, (s.applyOp op ctrl).m_state.m_status) ∈ allowedTransitions by
    exact ⟨(key _ _ hd).1, hd, (key _ _ hd).2⟩
  cases op with
  | opCreate =>
    by_cases h1 : s.m_state.m_status = SANDBOX_STATUS_UNKNOWN
    · by_cases h2 : ctrl.createOk
      · have hs : (s.applyOp SandboxOp.opCreate ctrl).m_state.m_status =
            SANDBOX_STATUS_CREATED := by
          simp [Sandbox.applyOp, Sandbox.Create, h1, h2]
        right
        rw [hs, h1]
        decide
      · left
        simp [Sandbox.applyOp, Sandbox.Create, h1, h2]
    · left
      simp [Sandbox.applyOp, Sandbox.Create, h1]
  | opStart =>
    by_cases h1 : s.m_state.m_status = SANDBOX_STATUS_CREATED
    · by_cases h2 : ctrl.startOk
      · have hs : (s.applyOp SandboxOp.opStart ctrl).m_state.m_status =
            SANDBOX_STATUS_RUNNING := by
          simp [Sandbox.applyOp, Sandbox.Start, h1, h2]
        right
        rw [hs, h1]
        decide
      · left
        simp [Sandbox.applyOp, Sandbox.Start, h1, h2]
    · left
      simp [Sandbox.applyOp, Sandbox.Start, h1]
  | opStop t =>
    by_cases h1 : s.m_state.m_status = SANDBOX_STATUS_REMOVING
    · left
      simp [Sandbox.applyOp, Sandbox.Stop, Sandbox.IsRemovalInProcess, h1]
    · by_cases h2 : s.m_state.m_status = SANDBOX_STATUS_RUNNING
      · by_cases h3 : ctrl.stopOk
        · have hs : (s.applyOp (SandboxOp.opStop t) ctrl).m_state.m_status =
              SANDBOX_STATUS_STOPPED := by
            simp [Sandbox.applyOp, Sandbox.Stop, Sandbox.IsRemovalInProcess, Sandbox.DoStop,
              Sandbox.recordExit, h1, h2, h3]
          right
          rw [hs, h2]
          decide
        · left
          simp [Sandbox.applyOp, Sandbox.Stop, Sandbox.IsRemovalInProcess, Sandbox.DoStop,
            h1, h2, h3]
      · left
        simp [Sandbox.applyOp, Sandbox.Stop, Sandbox.IsRemovalInProcess, Sandbox.DoStop, h1, h2]
  | opRemove f =>
    by_cases h1 : s.m_state.m_status = SANDBOX_STATUS_REMOVING
    · left
      simp [Sandbox.applyOp, Sandbox.Remove, Sandbox.IsRemovalInProcess, h1]
    · by_cases h2 : s.m_state.m_status = SANDBOX_STATUS_CREATED ∨
          s.m_state.m_status = SANDBOX_STATUS_STOPPED
      · by_cases h3 : ctrl.removeOk
        · have hs : (s.applyOp (SandboxOp.opRemove f) ctrl).m_state.m_status =
              SANDBOX_STATUS_REMOVING := by
            rcases h2 with h2 | h2 <;>
              simp [Sandbox.applyOp, Sandbox.Remove, Sandbox.IsRemovalInProcess,
                Sandbox.removePhase, h2, h3]
          right
          rcases h2 with h2 | h2 <;> rw [hs, h2] <;> decide
        · left
          rcases h2 with h2 | h2 <;>
            simp [Sandbox.applyOp, Sandbox.Remove, Sandbox.IsRemovalInProcess,
              Sandbox.removePhase, h2, h3]
      · by_cases h3 : s.m_state.m_status = SANDBOX_STATUS_RUNNING ∧ f
        · obtain ⟨h3a, h3b⟩ := h3
          by_cases h4 : ctrl.stopOk
          · by_cases h5 : ctrl.removeOk
            · have hs : (s.applyOp (SandboxOp.opRemove f) ctrl).m_state.m_status =
                  SANDBOX_STATUS_REMOVING := by
                simp [Sandbox.applyOp, Sandbox.Remove, Sandbox.IsRemovalInProcess,
                  Sandbox.DoStop, Sandbox.removePhase, Sandbox.recordExit, h1, h2, h3a, h3b,
                  h4, h5]
              right
              rw [hs, h3a]
              decide
            · have hs : (s.applyOp (SandboxOp.opRemove f) ctrl).m_state.m_status =
                  SANDBOX_STATUS_STOPPED := by
                simp [Sandbox.applyOp, Sandbox.Remove, Sandbox.IsRemovalInProcess,
                  Sandbox.DoStop, Sandbox.removePhase, Sandbox.recordExit, h1, h2, h3a, h3b,
                  h4, h5]
              right
              rw [hs, h3a]
              decide
          · left
            simp [Sandbox.applyOp, Sandbox.Remove, Sandbox.IsRemovalInProcess, Sandbox.DoStop,
              h1, h2, h3a, h3b, h4]
        · left
          simp [Sandbox.applyOp, Sandbox.Remove, Sandbox.IsRemovalInProcess, h1, h2, h3]
  | opOnExit info =>
    by_cases h1 : s.m_state.m_status = SANDBOX_STATUS_RUNNING
    · have hs : (s.applyOp (SandboxOp.opOnExit info) ctrl).m_state.m_status =
          SANDBOX_STATUS_STOPPED := by
        simp [Sandbox.applyOp, Sandbox.OnSandboxExit, Sandbox.recordExit, h1]
      right
      rw [hs, h1]
      decide
    · left
      simp [Sandbox.applyOp, Sandbox.OnSandboxExit, h1]

/-- C4 witness: on an example sandbox already in REMOVING, an operation
(here a Stop) leaves the status REMOVING. -/
theorem lifecycle_status_forward_only_witness :
    ((egSandbox SANDBOX_STATUS_REMOVING).applyOp (SandboxOp.opStop 3) egCtrl).m_state.m_status =
      SANDBOX_STATUS_REMOVING :=
  (lifecycle_status_forward_only (egSandbox SANDBOX_STATUS_REMOVING) (SandboxOp.opStop 3)
    egCtrl).2.2 rfl

/-- C5: for every sandbox, saving it and loading the saved documents into
a fresh instance constructed with the same id and directories succeeds
and reproduces the persisted fields: id, the whole runtime state (status,
pid, created/updated/exited timestamps, exit status), the container list,
the network settings and readiness, the identity strings, the task
address, and the directories. -/
theorem save_load_roundtrip_id (s : Sandbox) (n sb rt np : String) :
    ∃ t : Sandbox, saveLoadRoundtrip s n sb rt np = some t ∧
      t.m_id = s.m_id ∧
      t.m_state = s.m_state ∧
      t.m_containers = s.m_containers ∧
      t.m_networkSettings = s.m_networkSettings ∧
      t.m_networkReady = s.m_networkReady ∧
      t.m_name = s.m_name ∧
      t.m_sandboxer = s.m_sandboxer ∧
      t.m_runtimeHandler = s.m_runtimeHandler ∧
      t.m_netNsPath = s.m_netNsPath ∧
      t.m_taskAddress = s.m_taskAddress ∧
      t.m_rootdir = s.m_rootdir ∧
      t.m_statedir = s.m_statedir := by
  simp only [saveLoadRoundtrip, Sandbox.construct, Sandbox.Load, Sandbox.Save,
    SandboxStatus.ofNat_toNat, Option.bind_some, Option.some_bind]
  exact ⟨_, rfl, rfl, rfl, rfl, rfl, rfl, rfl, rfl, rfl, rfl, rfl, rfl, rfl⟩
